import Mathlib

/-!
Verification of the chat-cli multi-provider conversational client.

The definitions below are a shallow embedding of the Go sources under
`internal/providers` (ollama.go, groq.go, openai.go, gemini.go, the Together
and SambaNova provider files) and of `CreateChatClient` from the cli package.
External effects (environment, HTTP transport, stream decoding) are passed in
as explicit oracle values; pure control flow and state updates are translated
directly from the source.
-/

namespace ChatCli

/-- Modelled from the spec: the repository's `internal/consts` package is not
among the provided sources; the spec gives the role enum {system,user,assistant}
for ConversationMessage, and the provider files refer to `consts.SystemRole`,
`consts.UserRole`, `consts.AssistantRole`. -/
def SystemRole : String := "system"

/-- Modelled from the spec: role tag for user messages (`consts.UserRole`). -/
def UserRole : String := "user"

/-- Modelled from the spec: role tag for assistant messages
(`consts.AssistantRole`). -/
def AssistantRole : String := "assistant"

/-- A role-tagged chat message. Embeds `OllamaMessage`, the go-openai
`ChatCompletionMessage` (role/content fields only), the SambaNova `Message`,
and the role/single-text-part view of a Gemini `genai.Content`. -/
structure Message where
  role : String
  content : String
deriving Repr, DecidableEq

/-- Process environment. Go's `os.Getenv` returns `""` for an unset variable,
so the environment is a total map to strings with `""` meaning absent. -/
abbrev Env : Type := String → String

/-- Go map indexing `m[k]` on a `map[string]string`: the zero value `""` when
the key is absent. -/
def mapGet (table : List (String × String)) (key : String) : String :=
  (table.lookup key).getD ""

/-- The `ollamaModels` alias table from ollama.go. -/
def ollamaModels : List (String × String) :=
  [("mistral", "mistral:latest"),
   ("llama", "llama3:latest"),
   ("deepseek", "deepseek-coder:latest"),
   ("gemma", "gemma:latest")]

/-- The `groqModels` alias table from groq.go. -/
def groqModels : List (String × String) :=
  [("gemma", "gemma2-9b-it")]

/-- The `openaiModels` alias table from openai.go. -/
def openaiModels : List (String × String) :=
  [("gpt-4.1-nano", "gpt-4.1-nano")]

/-- The `togetherModels` alias table from the Together provider file. -/
def togetherModels : List (String × String) :=
  [("llama-70b", "meta-llama/Llama-3.3-70B-Instruct-Turbo-Free"),
   ("deepseek", "deepseek-ai/DeepSeek-R1-Distill-Llama-70B-free")]

/-- The `sambaModels` alias table from the SambaNova provider file. -/
def sambaModels : List (String × String) :=
  [("llama-70b", "Meta-Llama-3.3-70B-Instruct")]

/-- The `geminiModels` alias table from gemini.go. -/
def geminiModels : List (String × String) :=
  [("gemini-pro", "gemini-2.5-pro-exp-03-25"),
   ("gemini-flash", "gemini-2.5-flash-preview-04-17"),
   ("gemini-flash-lite", "gemini-2.0-flash-lite")]

/-- The model-selection pattern shared verbatim by every provider's
`Initialize`: `selected := table[modelEnv]; if selected == "" { selected =
table[defaultAlias] }`. -/
def resolveModel (table : List (String × String)) (defaultAlias : String)
    (modelEnv : String) : String :=
  let selected := mapGet table modelEnv
  if selected = "" then mapGet table defaultAlias else selected

/-- The system seed message every OpenAI-compatible adapter and the Ollama
adapter installs at initialization. -/
def seedMessages : List Message :=
  [⟨SystemRole, "Provide helpful and concise responses"⟩]

/-- `utils.ValidateAPIKey` from validation.go. Go measures `len(key)` in bytes
and slices `key[:3]` by bytes; `unicode.IsLetter`/`IsDigit` walk runes. The
embedding uses UTF-8 byte length and the char list, which agree with Go on
ASCII keys. -/
def ValidateAPIKey (key : String) (provider : String) : Bool :=
  if key = "" then false
  else if key.utf8ByteSize < 20 then false
  else if !(key.data.all fun c => c.isAlpha || c.isDigit || c == '-' || c == '_' || c == '.') then
    false
  else if provider = "openai" then
    !(key.utf8ByteSize ≥ 3 && key.data.take 3 ≠ ['s', 'k', '-'])
  else true

/-! ## Ollama adapter (ollama.go) -/

/-- `OllamaClient` state: server URL, conversation, selected model. The shared
`http.Client` handle and logger are external resources, not data. -/
structure OllamaClient where
  serverURL : String
  messages : List Message
  selectedModel : String
deriving Repr, DecidableEq

/-- Outcome of the liveness `GET` that `OllamaClient.Initialize` performs
against the server base URL. -/
inductive ProbeResult where
  | connectError (e : String)
  | status (code : Nat)
deriving Repr, DecidableEq

/-- `OllamaClient.Initialize`: default the URL, resolve the model alias, seed
the conversation with the system message, then probe the server; fail on a
connection error or a non-200 status. -/
def OllamaClient.Initialize (env : Env) (probe : ProbeResult) :
    Except String OllamaClient :=
  let serverURL := if env "OLLAMA_URL" = "" then "http://localhost:11434" else env "OLLAMA_URL"
  let selectedModel := resolveModel ollamaModels "llama" (env "OLLAMA_MODEL")
  let messages := seedMessages
  match probe with
  | .connectError e =>
      .error ("could not connect to Ollama server at " ++ serverURL ++ ": " ++ e)
  | .status code =>
      if code ≠ 200 then
        .error ("ollama server at " ++ serverURL ++ " returned status " ++ toString code)
      else
        .ok ⟨serverURL, messages, selectedModel⟩

/-- `OllamaClient.GetModelName`. -/
def OllamaClient.GetModelName (o : OllamaClient) : String :=
  o.selectedModel

/-- One decoded frame of the Ollama chat stream (`OllamaResponse`): the
message fragment and the completion flag. The model/created-at metadata fields
play no role in the receive loop. -/
structure OllamaResponse where
  message : Message
  done : Bool
deriving Repr, DecidableEq

/-- The decode sequence the `json.Decoder` yields from the response body:
each item is a decoded frame or a decode error; the end of the list is
`io.EOF`. -/
abbrev OllamaStream : Type := List (Except String OllamaResponse)

/-- The receive loop of `OllamaClient.SendMessage`: decode frames one at a
time, concatenating `ollamaResp.Message.Content`; an exhausted stream is
`io.EOF` (normal break), a decode error aborts with the partial text, and a
frame with `Done` set breaks after its fragment is appended. -/
def ollamaRecvLoop : OllamaStream → String → String × Option String
  | [], acc => (acc, none)
  | .error e :: _, acc => (acc, some ("failed to decode response: " ++ e))
  | .ok r :: rest, acc =>
      let acc := acc ++ r.message.content
      if r.done then (acc, none) else ollamaRecvLoop rest acc

/-- External outcome of the `POST /api/chat` issued by Ollama's
`SendMessage`. Marshalling of `OllamaRequest` has an error branch in the
source, so it appears as an oracle case as well. -/
inductive OllamaIO where
  | marshalError (e : String)
  | postError (e : String)
  | response (code : Nat) (body : String) (stream : OllamaStream)
deriving Repr

/-- `OllamaClient.SendMessage`: append the user message, send the request,
stream the reply; on success append the assembled assistant message. Elapsed
wall-clock time is not modelled. Returns (response text, error, new state). -/
def OllamaClient.SendMessage (o : OllamaClient) (message : String)
    (io : OllamaIO) : String × Option String × OllamaClient :=
  let o := { o with messages := o.messages ++ [⟨UserRole, message⟩] }
  match io with
  | .marshalError e => ("", some ("failed to marshal request: " ++ e), o)
  | .postError e => ("", some ("failed to send request: " ++ e), o)
  | .response code body stream =>
      if code ≠ 200 then
        ("", some ("API request failed (" ++ toString code ++ "): " ++ body), o)
      else
        match ollamaRecvLoop stream "" with
        | (text, some e) => (text, some e, o)
        | (text, none) =>
            (text, none, { o with messages := o.messages ++ [⟨AssistantRole, text⟩] })

/-! ## OpenAI-compatible SSE streaming adapters (groq.go, openai.go, the
Together provider file) -/

/-- `strings.Contains(s, "EOF")`, used by the three SSE adapters to classify a
receive error as end-of-stream. Structural recursion over the char list. -/
def charsStartEOF : List Char → Bool
  | 'E' :: 'O' :: 'F' :: _ => true
  | _ => false

/-- Whether `"EOF"` occurs anywhere in the char list. -/
def charsContainEOF : List Char → Bool
  | [] => false
  | c :: rest => charsStartEOF (c :: rest) || charsContainEOF rest

/-- `strings.Contains(err.Error(), "EOF")` on the error message. -/
def containsEOF (s : String) : Bool :=
  charsContainEOF s.data

/-- One successful `stream.Recv()` result: the delta event's choices, each
reduced to its `Delta.Content` string. -/
abbrev SSEEvent : Type := List String

/-- The terminal `stream.Recv()` error that ends the receive loop:
`ioEOF` is `err == io.EOF`, `msg` is `err.Error()`. -/
structure SSETerminal where
  ioEOF : Bool
  msg : String
deriving Repr, DecidableEq

/-- A created completion stream: the successful delta events in order,
followed by the terminal receive error. -/
structure SSEStream where
  events : List SSEEvent
  terminal : SSETerminal
deriving Repr, DecidableEq

/-- Outcome of `client.CreateChatCompletionStream`. -/
inductive SSEIO where
  | createError (e : String)
  | stream (s : SSEStream)
deriving Repr, DecidableEq

/-- The receive loop shared verbatim by the Groq, OpenAI and Together
`SendMessage` implementations: on a receive error that is `io.EOF` or whose
message contains `"EOF"`, break normally; on any other error, return the
partial text with a stream error; on an event with at least one choice append
the first choice's delta content; an event with no choices is only logged. -/
def sseRecvLoop : List SSEEvent → SSETerminal → String → String × Option String
  | [], t, acc =>
      if t.ioEOF || containsEOF t.msg then (acc, none)
      else (acc, some ("stream error: " ++ t.msg))
  | choices :: rest, t, acc =>
      match choices with
      | contentChunk :: _ => sseRecvLoop rest t (acc ++ contentChunk)
      | [] => sseRecvLoop rest t acc

/-- `GroqClient` state (conversation and selected model; the SDK client handle
and logger are external resources). -/
structure GroqClient where
  messages : List Message
  selectedModel : String
deriving Repr, DecidableEq

/-- `GroqClient.GetModelName`. -/
def GroqClient.GetModelName (g : GroqClient) : String :=
  g.selectedModel

/-- `GroqClient.SendMessage`: append the user message, create the stream
(failing with empty text if creation fails), run the receive loop, and on
normal termination append the assembled assistant message. -/
def GroqClient.SendMessage (g : GroqClient) (message : String) (io : SSEIO) :
    String × Option String × GroqClient :=
  let g := { g with messages := g.messages ++ [⟨UserRole, message⟩] }
  match io with
  | .createError e => ("", some ("failed to create stream: " ++ e), g)
  | .stream s =>
      match sseRecvLoop s.events s.terminal "" with
      | (text, some e) => (text, some e, g)
      | (text, none) =>
          (text, none, { g with messages := g.messages ++ [⟨AssistantRole, text⟩] })

/-- `OpenAIClient` state. -/
structure OpenAIClient where
  messages : List Message
  selectedModel : String
deriving Repr, DecidableEq

/-- `OpenAIClient.GetModelName`. -/
def OpenAIClient.GetModelName (o : OpenAIClient) : String :=
  o.selectedModel

/-- `OpenAIClient.SendMessage`; identical streaming algorithm to the Groq
adapter (openai.go additionally reformats a typed `APIError` on stream
creation failure, which only changes the message text carried by the
`createError` oracle). -/
def OpenAIClient.SendMessage (o : OpenAIClient) (message : String) (io : SSEIO) :
    String × Option String × OpenAIClient :=
  let o := { o with messages := o.messages ++ [⟨UserRole, message⟩] }
  match io with
  | .createError e => ("", some ("failed to create stream: " ++ e), o)
  | .stream s =>
      match sseRecvLoop s.events s.terminal "" with
      | (text, some e) => (text, some e, o)
      | (text, none) =>
          (text, none, { o with messages := o.messages ++ [⟨AssistantRole, text⟩] })

/-- `TogetherClient` state. -/
structure TogetherClient where
  messages : List Message
  selectedModel : String
deriving Repr, DecidableEq

/-- `TogetherClient.GetModelName`. -/
def TogetherClient.GetModelName (t : TogetherClient) : String :=
  t.selectedModel

/-- `TogetherClient.SendMessage`; identical streaming algorithm to the Groq
adapter. -/
def TogetherClient.SendMessage (t : TogetherClient) (message : String) (io : SSEIO) :
    String × Option String × TogetherClient :=
  let t := { t with messages := t.messages ++ [⟨UserRole, message⟩] }
  match io with
  | .createError e => ("", some ("failed to create stream: " ++ e), t)
  | .stream s =>
      match sseRecvLoop s.events s.terminal "" with
      | (text, some e) => (text, some e, t)
      | (text, none) =>
          (text, none, { t with messages := t.messages ++ [⟨AssistantRole, text⟩] })

/-! ## Gemini adapter (gemini.go) -/

/-- `GeminiClient` state (conversation and selected model; the `genai.Client`
and `GenerativeModel` handles are external resources). Each history entry is a
`genai.Content` with a role and a single text part, viewed as a `Message`. -/
structure GeminiClient where
  messages : List Message
  selectedModel : String
deriving Repr, DecidableEq

/-- `GeminiClient.GetModelName`. -/
def GeminiClient.GetModelName (g : GeminiClient) : String :=
  g.selectedModel

/-- One successful `iter.Next()` response: the text parts of
`resp.Candidates[0].Content.Parts`. -/
abbrev GeminiResponse : Type := List String

/-- The Gemini response iterator: the successful responses in order, then
either `iterator.Done` (`terminal = none`) or an iteration error. -/
structure GeminiStream where
  events : List GeminiResponse
  terminal : Option String
deriving Repr, DecidableEq

/-- Concatenation of the text parts of one Gemini response, as performed by
the inner `for _, part := range resp.Candidates[0].Content.Parts` loop. -/
def geminiJoinParts : List String → String
  | [] => ""
  | part :: rest => part ++ geminiJoinParts rest

/-- The receive loop of `GeminiClient.SendMessage`: `iterator.Done` breaks
normally; any other iteration error returns the partial text with a stream
error; each response contributes all its text parts. -/
def geminiRecvLoop : List GeminiResponse → Option String → String → String × Option String
  | [], none, acc => (acc, none)
  | [], some e, acc => (acc, some ("stream error: " ++ e))
  | parts :: rest, t, acc => geminiRecvLoop rest t (acc ++ geminiJoinParts parts)

/-- `GeminiClient.SendMessage`: append the user message (role literal
`"user"` in gemini.go), stream the reply, and on normal termination append the
assistant message (role literal `"assistant"`). -/
def GeminiClient.SendMessage (g : GeminiClient) (message : String)
    (io : GeminiStream) : String × Option String × GeminiClient :=
  let g := { g with messages := g.messages ++ [⟨"user", message⟩] }
  match geminiRecvLoop io.events io.terminal "" with
  | (text, some e) => (text, some e, g)
  | (text, none) =>
      (text, none, { g with messages := g.messages ++ [⟨"assistant", text⟩] })

/-! ## SambaNova adapter (SambaNova provider file) -/

/-- `SambaClient` state. -/
structure SambaClient where
  apiKey : String
  baseURL : String
  messages : List Message
  selectedModel : String
deriving Repr, DecidableEq

/-- `SambaClient.GetModelName`. -/
def SambaClient.GetModelName (s : SambaClient) : String :=
  s.selectedModel

/-- One choice of the SambaNova `ChatCompletionResponse`, reduced to
`Choices[i].Message.Content`. -/
structure SambaChoice where
  content : String
deriving Repr, DecidableEq

/-- The SambaNova `ChatCompletionResponse`. -/
structure ChatCompletionResponse where
  choices : List SambaChoice
deriving Repr, DecidableEq

/-- External outcome of the single-shot SambaNova exchange, covering every
failure branch of `SambaClient.SendMessage` in source order: request
marshalling, request construction, context timeout, transport send, then an
HTTP response whose body decode result is an oracle as well. -/
inductive SambaIO where
  | marshalError (e : String)
  | reqError (e : String)
  | timeout
  | sendError (e : String)
  | response (code : Nat) (body : String) (decoded : Except String ChatCompletionResponse)
deriving Repr

/-- `SambaClient.SendMessage`: build `currentMessages` as a per-call copy with
the user message appended, perform the single-shot exchange, and only on a
2xx-decoded response whose first choice has non-empty content commit
`currentMessages` plus the assistant message to the persistent state. Zero
choices or empty first-choice content is an empty success that leaves the
state untouched. -/
def SambaClient.SendMessage (s : SambaClient) (message : String)
    (io : SambaIO) : String × Option String × SambaClient :=
  let currentMessages := s.messages ++ [⟨UserRole, message⟩]
  match io with
  | .marshalError e => ("", some ("failed to marshal request: " ++ e), s)
  | .reqError e => ("", some ("failed to create request: " ++ e), s)
  | .timeout => ("", some "request timed out after 90s", s)
  | .sendError e => ("", some ("failed to send request: " ++ e), s)
  | .response code body decoded =>
      if code ≠ 200 then
        ("", some ("API request failed (" ++ toString code ++ "): " ++ body), s)
      else
        match decoded with
        | .error e => ("", some ("failed to decode response: " ++ e), s)
        | .ok completionResp =>
            match completionResp.choices with
            | [] => ("", none, s)
            | choice :: _ =>
                if choice.content = "" then ("", none, s)
                else
                  (choice.content, none,
                   { s with messages := currentMessages ++ [⟨AssistantRole, choice.content⟩] })

/-! ## Initialization of the credential-requiring providers

Each `Initialize` is embedded as its result together with the list of network
resources (SDK client / HTTP client constructions) it got as far as opening,
in source order, so that "construction does not proceed to opening a network
resource" is observable. -/

/-- An `Initialize` outcome: the result and the network resources opened. -/
structure InitOutcome (σ : Type) where
  result : Except String σ
  openedResources : List String
deriving Repr

/-- `GroqClient.Initialize`: fail if `GROQ_API_KEY` is unset; otherwise
resolve the model alias (default `"gemma"`), construct the configured SDK
client against the Groq base URL, and seed the conversation. -/
def GroqClient.Initialize (env : Env) : InitOutcome GroqClient :=
  let apiKey := env "GROQ_API_KEY"
  if apiKey = "" then ⟨.error "GROQ_API_KEY env var not set", []⟩
  else
    let selectedModel := resolveModel groqModels "gemma" (env "GROQ_MODEL")
    ⟨.ok ⟨seedMessages, selectedModel⟩, ["openai.NewClientWithConfig https://api.groq.com/openai/v1"]⟩

/-- `TogetherClient.Initialize`: fail if `TOGETHER_API_KEY` is unset;
otherwise resolve the model alias (default `"llama-70b"`), construct the
configured SDK client against the Together base URL, and seed the
conversation. -/
def TogetherClient.Initialize (env : Env) : InitOutcome TogetherClient :=
  let apiKey := env "TOGETHER_API_KEY"
  if apiKey = "" then ⟨.error "TOGETHER_API_KEY env var not set", []⟩
  else
    let selectedModel := resolveModel togetherModels "llama-70b" (env "TOGETHER_MODEL")
    ⟨.ok ⟨seedMessages, selectedModel⟩, ["openai.NewClientWithConfig https://api.together.xyz/v1"]⟩

/-- `OpenAIClient.Initialize`: fail if `OPENAI_API_KEY` is unset, fail if the
key does not pass `utils.ValidateAPIKey`; otherwise construct the SDK client,
resolve the model alias (default `"gpt-4.1-nano"`), and seed the
conversation. -/
def OpenAIClient.Initialize (env : Env) : InitOutcome OpenAIClient :=
  let apiKey := env "OPENAI_API_KEY"
  if apiKey = "" then ⟨.error "OPENAI_API_KEY env var not set", []⟩
  else if !ValidateAPIKey apiKey "openai" then
    ⟨.error "OPENAI_API_KEY appears invalid", []⟩
  else
    let selectedModel := resolveModel openaiModels "gpt-4.1-nano" (env "OPENAI_MODEL")
    ⟨.ok ⟨seedMessages, selectedModel⟩, ["openai.NewClient"]⟩

/-- `SambaClient.Initialize`: fail if `SAMBA_API_KEY` is unset; otherwise
resolve the model alias (default `"llama-70b"`), fix the base URL, and
construct the HTTP client. The conversation starts empty (`messages` keeps
its zero value; the source leaves the seeding commented out). -/
def SambaClient.Initialize (env : Env) : InitOutcome SambaClient :=
  let apiKey := env "SAMBA_API_KEY"
  if apiKey = "" then ⟨.error "SAMBA_API_KEY env var not set", []⟩
  else
    let selectedModel := resolveModel sambaModels "llama-70b" (env "SAMBA_MODEL")
    ⟨.ok ⟨apiKey, "https://api.sambanova.ai/v1", [], selectedModel⟩,
     ["http.Client timeout=60s"]⟩

/-- `GeminiClient.Initialize`: fail if `GEMINI_API_KEY` is unset; otherwise
construct the `genai` client (`newClient` is the oracle for that irreducibly
external call, which happens before model resolution and can fail), resolve
the model alias (default `"gemini-flash-lite"`), and start with an empty
conversation (Gemini supports no system role). -/
def GeminiClient.Initialize (env : Env) (newClient : Except String Unit) :
    InitOutcome GeminiClient :=
  let apiKey := env "GEMINI_API_KEY"
  if apiKey = "" then ⟨.error "GEMINI_API_KEY env var not set", []⟩
  else
    match newClient with
    | .error e => ⟨.error ("failed to create Gemini client: " ++ e), ["genai.NewClient"]⟩
    | .ok _ =>
        let selectedModel := resolveModel geminiModels "gemini-flash-lite" (env "GEMINI_MODEL")
        ⟨.ok ⟨[], selectedModel⟩, ["genai.NewClient"]⟩

/-! ## Client factory (`CreateChatClient` in the cli package) -/

/-- The uniform client value returned by the factory, tagged with the
concrete adapter type behind the `ChatInterface` contract. -/
inductive ChatClient where
  | together (st : TogetherClient)
  | ollama (st : OllamaClient)
  | groq (st : GroqClient)
  | samba (st : SambaClient)
  | openai (st : OpenAIClient)
  | gemini (st : GeminiClient)
deriving Repr

/-- `CreateChatClient`: switch on the provider name in source order
(together, groq, samba, openai, gemini, ollama, default). For each
credential-requiring provider the factory checks the credential variable
itself before constructing the adapter and calling its `Initialize`; Ollama
needs no credential; any other name is an unsupported-provider error.
`probe` and `newClient` are the oracles consumed by the Ollama and Gemini
initializations. -/
def CreateChatClient (provider : String) (env : Env) (probe : ProbeResult)
    (newClient : Except String Unit) : Except String ChatClient :=
  if provider = "together" then
    if env "TOGETHER_API_KEY" ≠ "" then
      (TogetherClient.Initialize env).result.map ChatClient.together
    else .error "TOGETHER_API_KEY not set for Together provider"
  else if provider = "groq" then
    if env "GROQ_API_KEY" ≠ "" then
      (GroqClient.Initialize env).result.map ChatClient.groq
    else .error "GROQ_API_KEY not set for Groq provider"
  else if provider = "samba" then
    if env "SAMBA_API_KEY" ≠ "" then
      (SambaClient.Initialize env).result.map ChatClient.samba
    else .error "SAMBA_API_KEY not set for Samba provider"
  else if provider = "openai" then
    if env "OPENAI_API_KEY" ≠ "" then
      (OpenAIClient.Initialize env).result.map ChatClient.openai
    else .error "OPENAI_API_KEY not set for OpenAI provider"
  else if provider = "gemini" then
    if env "GEMINI_API_KEY" ≠ "" then
      (GeminiClient.Initialize env newClient).result.map ChatClient.gemini
    else .error "GEMINI_API_KEY not set for Gemini provider"
  else if provider = "ollama" then
    (OllamaClient.Initialize env probe).map ChatClient.ollama
  else .error ("unsupported provider: " ++ provider)

/-! ## Claim-side vocabulary and shared lemmas -/

/-- Concatenation of a list of text fragments, for stating the streaming
claims. -/
def concatFragments : List String → String
  | [] => ""
  | s :: rest => s ++ concatFragments rest

/-- The text the spec predicts for an SSE stream: the concatenation of the
first choice's delta content over exactly the events that contain at least one
choice. -/
def concatFirstChoices : List SSEEvent → String
  | [] => ""
  | [] :: rest => concatFirstChoices rest
  | (c :: _) :: rest => c ++ concatFirstChoices rest

/-- A conversation that is a chronological sequence of complete turns, each a
user message followed by an assistant message. -/
def alternatingUA : List Message → Bool
  | [] => true
  | [_] => false
  | u :: a :: rest => u.role = "user" && a.role = "assistant" && alternatingUA rest

/-- A non-final Ollama stream frame carrying one content fragment. -/
def ollamaChunk (content : String) : Except String OllamaResponse :=
  .ok ⟨⟨AssistantRole, content⟩, false⟩

/-- The fixed supported provider-name set of the factory. -/
def supportedProviders : List String :=
  ["together", "ollama", "groq", "samba", "openai", "gemini"]

/-- Appending two strings is associative. -/
theorem string_append_assoc (a b c : String) : a ++ b ++ c = a ++ (b ++ c) := by
  apply String.ext
  simp [String.data_append]

/-- Appending a complete user/assistant turn preserves turn alternation. -/
theorem alternatingUA_append_turn (xs : List Message) (u a : Message)
    (hx : alternatingUA xs = true) (hu : u.role = "user") (ha : a.role = "assistant") :
    alternatingUA (xs ++ [u, a]) = true := by
  induction xs using alternatingUA.induct with
  | case1 => simp [alternatingUA, hu, ha]
  | case2 x => simp [alternatingUA] at hx
  | case3 x y rest ih =>
      simp only [List.cons_append, alternatingUA, Bool.and_eq_true, decide_eq_true_eq] at hx ⊢
      exact ⟨hx.1, ih hx.2⟩

/-- Closed form of the SSE receive loop: the accumulated text is the
concatenation of first-choice deltas over events with at least one choice, and
the loop ends normally exactly when the terminal error is end-of-stream. -/
theorem sseRecvLoop_eq (events : List SSEEvent) (t : SSETerminal) (acc : String) :
    sseRecvLoop events t acc =
      (acc ++ concatFirstChoices events,
       if t.ioEOF || containsEOF t.msg then none
       else some ("stream error: " ++ t.msg)) := by
  induction events generalizing acc with
  | nil =>
      rcases t with ⟨b, m⟩
      by_cases h : (b || containsEOF m) = true <;>
        simp [sseRecvLoop, concatFirstChoices, String.append_empty, h]
  | cons ev rest ih =>
      cases ev with
      | nil => simp [sseRecvLoop, concatFirstChoices, ih]
      | cons c cs => simp [sseRecvLoop, concatFirstChoices, ih, string_append_assoc]

/-- Closed form of the Gemini receive loop. -/
theorem geminiRecvLoop_eq (events : List GeminiResponse) (t : Option String) (acc : String) :
    geminiRecvLoop events t acc =
      (acc ++ concatFragments (events.map geminiJoinParts),
       t.map fun e => "stream error: " ++ e) := by
  induction events generalizing acc with
  | nil =>
      cases t <;> simp [geminiRecvLoop, concatFragments, String.append_empty]
  | cons parts rest ih =>
      simp [geminiRecvLoop, concatFragments, ih, string_append_assoc]

/-- The Ollama receive loop on a stream of non-final fragment frames ending in
a decode error: it returns the partial concatenation and the decode error. -/
theorem ollamaRecvLoop_decode_error (cs : List String) (e : String)
    (rest : OllamaStream) (acc : String) :
    ollamaRecvLoop (cs.map ollamaChunk ++ .error e :: rest) acc =
      (acc ++ concatFragments cs, some ("failed to decode response: " ++ e)) := by
  induction cs generalizing acc with
  | nil => simp [ollamaRecvLoop, concatFragments, String.append_empty]
  | cons c cs ih =>
      simp [ollamaRecvLoop, ollamaChunk, concatFragments, ih, string_append_assoc]

/-- The Ollama receive loop on a stream of non-final fragment frames that then
reaches end-of-stream: normal termination with the full concatenation. -/
theorem ollamaRecvLoop_eof (cs : List String) (acc : String) :
    ollamaRecvLoop (cs.map ollamaChunk) acc = (acc ++ concatFragments cs, none) := by
  induction cs generalizing acc with
  | nil => simp [ollamaRecvLoop, concatFragments, String.append_empty]
  | cons c cs ih =>
      simp [ollamaRecvLoop, ollamaChunk, concatFragments, ih, string_append_assoc]

/-- The Ollama receive loop stops at the first frame whose completion flag is
set, appending that frame's fragment and ignoring the rest of the stream. -/
theorem ollamaRecvLoop_done_first (cs : List String) (role d : String)
    (rest : OllamaStream) (acc : String) :
    ollamaRecvLoop (cs.map ollamaChunk ++ .ok ⟨⟨role, d⟩, true⟩ :: rest) acc =
      (acc ++ (concatFragments cs ++ d), none) := by
  induction cs generalizing acc with
  | nil => simp [ollamaRecvLoop, concatFragments, String.empty_append]
  | cons c cs ih =>
      simp [ollamaRecvLoop, ollamaChunk, concatFragments, ih, string_append_assoc]

/-- Exhaustive outcome shape of the SambaNova exchange: a failure leaves the
persistent state untouched with empty text; an empty success leaves it
untouched; a non-empty success commits exactly the user and assistant
messages of the turn. -/
theorem samba_send_cases (s : SambaClient) (message : String) (io : SambaIO) :
    (∃ e, s.SendMessage message io = ("", some e, s)) ∨
    s.SendMessage message io = ("", none, s) ∨
    (∃ text, text ≠ "" ∧
      s.SendMessage message io =
        (text, none,
         { s with messages := s.messages ++ [⟨UserRole, message⟩] ++ [⟨AssistantRole, text⟩] })) := by
  cases io with
  | marshalError e => exact Or.inl ⟨_, rfl⟩
  | reqError e => exact Or.inl ⟨_, rfl⟩
  | timeout => exact Or.inl ⟨_, rfl⟩
  | sendError e => exact Or.inl ⟨_, rfl⟩
  | response code body decoded =>
      by_cases hc : code = 200
      · subst hc
        cases decoded with
        | error e => exact Or.inl ⟨_, rfl⟩
        | ok resp =>
            rcases resp with ⟨choices⟩
            cases choices with
            | nil => exact Or.inr (Or.inl rfl)
            | cons choice rest =>
                by_cases hcc : choice.content = ""
                · refine Or.inr (Or.inl ?_)
                  simp [SambaClient.SendMessage, hcc]
                · refine Or.inr (Or.inr ⟨choice.content, hcc, ?_⟩)
                  simp [SambaClient.SendMessage, hcc]
      · refine Or.inl ⟨"API request failed (" ++ toString code ++ "): " ++ body, ?_⟩
        simp [SambaClient.SendMessage, hc]

/-- A successful Gemini exchange appends exactly the user message and the
assistant message carrying the returned text. -/
theorem gemini_send_success (g : GeminiClient) (message : String) (io : GeminiStream)
    (text : String) (g' : GeminiClient)
    (h : g.SendMessage message io = (text, none, g')) :
    g'.messages = g.messages ++ [⟨"user", message⟩, ⟨"assistant", text⟩] := by
  unfold GeminiClient.SendMessage at h
  rw [geminiRecvLoop_eq] at h
  cases ht : io.terminal with
  | some e => rw [ht] at h; simp at h
  | none =>
      rw [ht] at h
      simp only [Option.map_none'] at h
      simp only [Prod.mk.injEq] at h
      obtain ⟨htext, -, hst⟩ := h
      subst htext
      rw [← hst]
      simp

/-- A non-empty successful SambaNova exchange appends exactly the user message
and the assistant message carrying the returned text. -/
theorem samba_send_success_nonempty (s : SambaClient) (message : String) (io : SambaIO)
    (text : String) (s' : SambaClient)
    (h : s.SendMessage message io = (text, none, s')) (hne : text ≠ "") :
    s'.messages = s.messages ++ [⟨UserRole, message⟩, ⟨AssistantRole, text⟩] := by
  rcases samba_send_cases s message io with ⟨e, heq⟩ | heq | ⟨t, htne, heq⟩ <;>
    rw [heq] at h <;> simp only [Prod.mk.injEq] at h
  · exact Option.noConfusion h.2.1
  · exact absurd h.1.symm hne
  · obtain ⟨rfl, -, hst⟩ := h
    rw [← hst]
    simp

/-- One scripted Gemini exchange: the user text and the stream oracle. -/
structure GeminiCall where
  message : String
  io : GeminiStream
deriving Repr, DecidableEq

/-- Run a sequence of Gemini exchanges, stopping with `none` if any exchange
fails. -/
def runGemini : GeminiClient → List GeminiCall → Option GeminiClient
  | g, [] => some g
  | g, c :: rest =>
      match g.SendMessage c.message c.io with
      | (_, some _, _) => none
      | (_, none, g') => runGemini g' rest

/-- One scripted SambaNova exchange. -/
structure SambaCall where
  message : String
  io : SambaIO
deriving Repr

/-- Run a sequence of SambaNova exchanges, stopping with `none` if any
exchange fails or returns an empty reply. -/
def runSambaNonEmpty : SambaClient → List SambaCall → Option SambaClient
  | s, [] => some s
  | s, c :: rest =>
      match s.SendMessage c.message c.io with
      | (text, none, s') => if text = "" then none else runSambaNonEmpty s' rest
      | (_, some _, _) => none

/-- Invariant of the Gemini runner: each successful exchange adds exactly one
user and one assistant message and preserves turn alternation. -/
theorem runGemini_invariant (calls : List GeminiCall) :
    ∀ (g g' : GeminiClient), runGemini g calls = some g' →
      g'.messages.length = g.messages.length + 2 * calls.length ∧
      (alternatingUA g.messages = true → alternatingUA g'.messages = true) := by
  induction calls with
  | nil =>
      intro g g' h
      simp only [runGemini, Option.some.injEq] at h
      subst h
      simp
  | cons c rest ih =>
      intro g g' h
      simp only [runGemini] at h
      rcases hsm : g.SendMessage c.message c.io with ⟨text, err, g1⟩
      rw [hsm] at h
      cases err with
      | some e => simp at h
      | none =>
          simp only at h
          have hmsg := gemini_send_success g c.message c.io text g1 hsm
          obtain ⟨hlen, halt⟩ := ih g1 g' h
          constructor
          · rw [hlen, hmsg]
            simp [List.length_append]
            ring
          · intro halt0
            exact halt (by rw [hmsg]; exact alternatingUA_append_turn _ _ _ halt0 rfl rfl)

/-- Invariant of the SambaNova runner: each successful non-empty exchange adds
exactly one user and one assistant message and preserves turn alternation. -/
theorem runSambaNonEmpty_invariant (calls : List SambaCall) :
    ∀ (s s' : SambaClient), runSambaNonEmpty s calls = some s' →
      s'.messages.length = s.messages.length + 2 * calls.length ∧
      (alternatingUA s.messages = true → alternatingUA s'.messages = true) := by
  induction calls with
  | nil =>
      intro s s' h
      simp only [runSambaNonEmpty, Option.some.injEq] at h
      subst h
      simp
  | cons c rest ih =>
      intro s s' h
      simp only [runSambaNonEmpty] at h
      rcases hsm : s.SendMessage c.message c.io with ⟨text, err, s1⟩
      rw [hsm] at h
      cases err with
      | some e => simp at h
      | none =>
          simp only at h
          by_cases hte : text = ""
          · rw [if_pos hte] at h; simp at h
          · rw [if_neg hte] at h
            have hmsg := samba_send_success_nonempty s c.message c.io text s1 hsm hte
            obtain ⟨hlen, halt⟩ := ih s1 s' h
            constructor
            · rw [hlen, hmsg]
              simp [List.length_append]
              ring
            · intro halt0
              exact halt (by rw [hmsg]; exact alternatingUA_append_turn _ _ _ halt0 rfl rfl)

/-- Whether an `Except` result is a success. -/
def exceptIsOk {ε α : Type _} : Except ε α → Bool
  | .ok _ => true
  | .error _ => false

/-- Mapping a function over an `Except` yields `.ok` exactly from `.ok`. -/
theorem except_map_ok {α β : Type _} (f : α → β) (x : Except String α) (c : β)
    (h : x.map f = .ok c) : ∃ st, x = .ok st ∧ c = f st := by
  cases x with
  | error e => simp [Except.map] at h
  | ok a => simp [Except.map] at h; exact ⟨a, rfl, h.symm⟩

/-- An SSE stream whose every event carries exactly one choice concatenates to
the fragment list itself. -/
theorem concatFirstChoices_singletons (cs : List String) :
    concatFirstChoices (cs.map fun c => [c]) = concatFragments cs := by
  induction cs with
  | nil => rfl
  | cons c cs ih => simp [concatFirstChoices, concatFragments, ih]

/-! ## Claims -/

/-- C5 counterexample: a 201 response — a 2xx status — with a zero-choice
body is not an empty success: the status check fires before the body is
decoded and `SendMessage` returns a non-nil hard failure carrying the
response body. -/
theorem samba_non200_2xx_fails_cex :
    (SambaClient.SendMessage
        ⟨"key", "https://api.sambanova.ai/v1", [], "Meta-Llama-3.3-70B-Instruct"⟩
        "hi" (.response 201 "zero-choices body" (.ok ⟨[]⟩))).2.1 =
      some "API request failed (201): zero-choices body"
    ∧ (SambaClient.SendMessage
        ⟨"key", "https://api.sambanova.ai/v1", [], "Meta-Llama-3.3-70B-Instruct"⟩
        "hi" (.response 201 "zero-choices body" (.ok ⟨[]⟩))).2.1 ≠ none
    ∧ 200 ≤ 201 ∧ 201 < 300 :=
  ⟨by decide, by decide, by decide, by decide⟩

/-- C5 (amended): for the single-shot SambaNova adapter, a response with
status exactly 200 decoding to zero choices, or to a first choice with empty
content, makes `SendMessage` return the empty string with no error — a
defined empty success leaving the state unchanged; any status other than 200,
the remaining 2xx statuses included, is a hard failure carrying the response
body. (Elapsed wall-clock time is not modelled.) -/
theorem samba_empty_choices_success (s : SambaClient) (message body : String)
    (resp : ChatCompletionResponse) (code : Nat)
    (h : resp.choices = [] ∨ ∃ c rest, resp.choices = c :: rest ∧ c.content = "")
    (hc : code ≠ 200) :
    s.SendMessage message (.response 200 body (.ok resp)) = ("", none, s)
    ∧ s.SendMessage message (.response code body (.ok resp)) =
        ("", some ("API request failed (" ++ toString code ++ "): " ++ body), s) := by
  constructor
  · rcases resp with ⟨choices⟩
    rcases h with h | ⟨c, rest, h, hcc⟩
    · simp only at h
      subst h
      rfl
    · simp only at h
      subst h
      simp [SambaClient.SendMessage, hcc]
  · simp [SambaClient.SendMessage, hc]

/-- Witness for C5: a concrete zero-choice 200 response yields the empty
success, and the same body at status 201 is a hard failure. -/
theorem samba_empty_choices_success_witness :
    (SambaClient.SendMessage
        ⟨"key", "https://api.sambanova.ai/v1", [], "Meta-Llama-3.3-70B-Instruct"⟩
        "hi" (.response 200 "body" (.ok ⟨[]⟩)) =
      ("", none, ⟨"key", "https://api.sambanova.ai/v1", [], "Meta-Llama-3.3-70B-Instruct"⟩))
    ∧ (SambaClient.SendMessage
        ⟨"key", "https://api.sambanova.ai/v1", [], "Meta-Llama-3.3-70B-Instruct"⟩
        "hi" (.response 201 "body" (.ok ⟨[]⟩)) =
      ("", some "API request failed (201): body",
       ⟨"key", "https://api.sambanova.ai/v1", [], "Meta-Llama-3.3-70B-Instruct"⟩)) :=
  samba_empty_choices_success _ "hi" "body" ⟨[]⟩ 201 (Or.inl rfl) (by decide)

/-- C6: on the three-frame stream `{"Hel",false}`, `{"lo",false}`,
`{"",true}`, Ollama's `SendMessage "hi"` returns `"Hello"` with no error and
appends exactly one user and one assistant message; in general the receive
loop concatenates decoded fragments and stops at end-of-stream or at the
first frame with the completion flag set, whichever comes first. -/
theorem ollama_stream_reassembly :
    (∀ o : OllamaClient,
      o.SendMessage "hi" (.response 200 ""
          [.ok ⟨⟨"assistant", "Hel"⟩, false⟩, .ok ⟨⟨"assistant", "lo"⟩, false⟩,
           .ok ⟨⟨"assistant", ""⟩, true⟩]) =
        ("Hello", none,
         { o with messages := o.messages ++ [⟨UserRole, "hi"⟩] ++ [⟨AssistantRole, "Hello"⟩] }))
    ∧ (∀ cs : List String,
        ollamaRecvLoop (cs.map ollamaChunk) "" = (concatFragments cs, none))
    ∧ (∀ (cs : List String) (role d : String) (rest : OllamaStream),
        ollamaRecvLoop (cs.map ollamaChunk ++ .ok ⟨⟨role, d⟩, true⟩ :: rest) "" =
          (concatFragments cs ++ d, none)) := by
  refine ⟨fun o => rfl, fun cs => ?_, fun cs role d rest => ?_⟩
  · rw [ollamaRecvLoop_eof, String.empty_append]
  · rw [ollamaRecvLoop_done_first, String.empty_append]

/-- C10: the SambaNova exchange is atomic with respect to its persistent
state: every failure leaves the state exactly unchanged (the user message of
the failed turn included), and a success either commits nothing (empty reply)
or commits exactly the user and assistant messages of the turn. -/
theorem samba_sendmessage_atomic (s : SambaClient) (message : String) (io : SambaIO) :
    (∀ text e s', s.SendMessage message io = (text, some e, s') → s' = s)
    ∧ (∀ text s', s.SendMessage message io = (text, none, s') →
        (text = "" ∧ s' = s) ∨
        (text ≠ "" ∧ s'.messages = s.messages ++ [⟨UserRole, message⟩, ⟨AssistantRole, text⟩])) := by
  constructor
  · intro text e s' h
    rcases samba_send_cases s message io with ⟨e0, heq⟩ | heq | ⟨t, htne, heq⟩ <;>
      rw [heq] at h <;> simp only [Prod.mk.injEq] at h
    · exact h.2.2.symm
    · exact Option.noConfusion h.2.1
    · exact Option.noConfusion h.2.1
  · intro text s' h
    rcases samba_send_cases s message io with ⟨e0, heq⟩ | heq | ⟨t, htne, heq⟩ <;>
      rw [heq] at h <;> simp only [Prod.mk.injEq] at h
    · exact Option.noConfusion h.2.1
    · exact Or.inl ⟨h.1.symm, h.2.2.symm⟩
    · obtain ⟨h1, -, h3⟩ := h
      subst h1
      refine Or.inr ⟨htne, ?_⟩
      rw [← h3]
      simp

/-- Witness for C10: a concrete timeout leaves a concrete state unchanged. -/
theorem samba_sendmessage_atomic_witness :
    (SambaClient.SendMessage
        ⟨"key", "https://api.sambanova.ai/v1", [], "Meta-Llama-3.3-70B-Instruct"⟩
        "hi" .timeout).2.2 =
      ⟨"key", "https://api.sambanova.ai/v1", [], "Meta-Llama-3.3-70B-Instruct"⟩ :=
  (samba_sendmessage_atomic _ "hi" .timeout).1 "" "request timed out after 90s" _ rfl

/-- C2 counterexample: one SambaNova `SendMessage` call that succeeds (nil
error, the documented empty success on zero choices) starting from the empty
conversation leaves the ConversationState with 0 messages, not 2·1 = 2. -/
theorem samba_empty_success_breaks_two_per_turn_cex :
    (SambaClient.SendMessage
        ⟨"key", "https://api.sambanova.ai/v1", [], "Meta-Llama-3.3-70B-Instruct"⟩
        "hi" (.response 200 "zero-choices body" (.ok ⟨[]⟩))).2.1 = none ∧
    (SambaClient.SendMessage
        ⟨"key", "https://api.sambanova.ai/v1", [], "Meta-Llama-3.3-70B-Instruct"⟩
        "hi" (.response 200 "zero-choices body" (.ok ⟨[]⟩))).2.2.messages.length = 0 ∧
    (0 : Nat) ≠ 2 * 1 :=
  ⟨rfl, rfl, by decide⟩

/-- C2 (amended): starting from an empty ConversationState, after N successful
Gemini `SendMessage` calls the state has exactly 2N messages alternating user
then assistant; the same holds for SambaNova provided each successful call
returned non-empty content, while a successful SambaNova call with an empty
reply leaves the state exactly unchanged. -/
theorem conversation_growth_two_per_turn :
    (∀ (model : String) (calls : List GeminiCall) (g' : GeminiClient),
        runGemini ⟨[], model⟩ calls = some g' →
        g'.messages.length = 2 * calls.length ∧ alternatingUA g'.messages = true)
    ∧ (∀ (s0 : SambaClient) (calls : List SambaCall) (s' : SambaClient),
        s0.messages = [] →
        runSambaNonEmpty s0 calls = some s' →
        s'.messages.length = 2 * calls.length ∧ alternatingUA s'.messages = true)
    ∧ (∀ (s : SambaClient) (message : String) (io : SambaIO) (s' : SambaClient),
        s.SendMessage message io = ("", none, s') → s' = s) := by
  refine ⟨?_, ?_, ?_⟩
  · intro model calls g' h
    obtain ⟨hlen, halt⟩ := runGemini_invariant calls ⟨[], model⟩ g' h
    refine ⟨by simpa using hlen, halt (by rfl)⟩
  · intro s0 calls s' h0 h
    obtain ⟨hlen, halt⟩ := runSambaNonEmpty_invariant calls s0 s' h
    rw [h0] at hlen halt
    refine ⟨by simpa using hlen, halt (by rfl)⟩
  · intro s message io s' h
    rcases samba_send_cases s message io with ⟨e0, heq⟩ | heq | ⟨t, htne, heq⟩ <;>
      rw [heq] at h <;> simp only [Prod.mk.injEq] at h
    · exact Option.noConfusion h.2.1
    · exact h.2.2.symm
    · exact absurd h.1 htne

/-- Witness for C2: one concrete successful Gemini turn gives 2 messages in
user/assistant order; one concrete non-empty SambaNova turn does the same;
one concrete empty-success SambaNova call leaves the state unchanged. -/
theorem conversation_growth_two_per_turn_witness :
    ((⟨[⟨"user", "hi"⟩, ⟨"assistant", "Hi"⟩], "gemini-2.0-flash-lite"⟩ : GeminiClient).messages.length =
        2 * 1
      ∧ alternatingUA
          (⟨[⟨"user", "hi"⟩, ⟨"assistant", "Hi"⟩], "gemini-2.0-flash-lite"⟩ : GeminiClient).messages =
        true)
    ∧ ((⟨"key", "https://api.sambanova.ai/v1", [⟨"user", "hi"⟩, ⟨"assistant", "Hi"⟩],
          "Meta-Llama-3.3-70B-Instruct"⟩ : SambaClient).messages.length = 2 * 1
      ∧ alternatingUA
          (⟨"key", "https://api.sambanova.ai/v1", [⟨"user", "hi"⟩, ⟨"assistant", "Hi"⟩],
            "Meta-Llama-3.3-70B-Instruct"⟩ : SambaClient).messages = true)
    ∧ ((⟨"key", "https://api.sambanova.ai/v1", [], "Meta-Llama-3.3-70B-Instruct"⟩ : SambaClient) =
        ⟨"key", "https://api.sambanova.ai/v1", [], "Meta-Llama-3.3-70B-Instruct"⟩) := by
  refine ⟨?_, ?_, ?_⟩
  · exact conversation_growth_two_per_turn.1 "gemini-2.0-flash-lite"
      [⟨"hi", ⟨[["Hi"]], none⟩⟩] _ (by decide)
  · exact conversation_growth_two_per_turn.2.1
      ⟨"key", "https://api.sambanova.ai/v1", [], "Meta-Llama-3.3-70B-Instruct"⟩
      [⟨"hi", .response 200 "body" (.ok ⟨[⟨"Hi"⟩]⟩)⟩] _ rfl (by decide)
  · exact conversation_growth_two_per_turn.2.2
      ⟨"key", "https://api.sambanova.ai/v1", [], "Meta-Llama-3.3-70B-Instruct"⟩
      "hi" (.response 200 "body" (.ok ⟨[]⟩)) _ rfl

/-- A freshly initialized Ollama client against the default local endpoint,
as left by a successful `Initialize` with no environment overrides. -/
def ollamaFreshClient : OllamaClient :=
  ⟨"http://localhost:11434", seedMessages, "llama3:latest"⟩

/-- `ollamaFreshClient` after one user message `"hi"` was appended. -/
def ollamaFreshClientAfterHi : OllamaClient :=
  ⟨"http://localhost:11434", seedMessages ++ [⟨UserRole, "hi"⟩], "llama3:latest"⟩

/-- C1 counterexample: a decode error after one received fragment makes
Ollama's `SendMessage` return the partial text with a non-nil error, but the
ConversationState has grown from 1 message to 2 — the user message of the
failed turn is retained, so the length is not unchanged. -/
theorem stream_error_state_growth_cex :
    ollamaFreshClient.SendMessage
        "hi" (.response 200 "" [ollamaChunk "Hel", .error "unexpected end of JSON input"]) =
      ("Hel", some "failed to decode response: unexpected end of JSON input",
       ollamaFreshClientAfterHi)
    ∧ ollamaFreshClientAfterHi.messages.length = 2
    ∧ ollamaFreshClient.messages.length = 1 :=
  ⟨by decide, by decide, by decide⟩

/-- C1 (amended): for every streaming adapter, a stream interrupted by a
decode or transport error after some fragments makes `SendMessage` return
exactly the partial text accumulated so far with a non-nil error, and the
ConversationState is the pre-call state plus exactly the user message of the
failed turn (one longer than before; no assistant message is retained). -/
theorem stream_failure_keeps_user_message :
    (∀ (o : OllamaClient) (message : String) (cs : List String) (e body : String)
        (rest : OllamaStream),
        o.SendMessage message (.response 200 body (cs.map ollamaChunk ++ .error e :: rest)) =
          (concatFragments cs, some ("failed to decode response: " ++ e),
           { o with messages := o.messages ++ [⟨UserRole, message⟩] }))
    ∧ (∀ (g : GroqClient) (message : String) (cs : List String) (t : SSETerminal),
        (t.ioEOF || containsEOF t.msg) = false →
        g.SendMessage message (.stream ⟨cs.map fun c => [c], t⟩) =
          (concatFragments cs, some ("stream error: " ++ t.msg),
           { g with messages := g.messages ++ [⟨UserRole, message⟩] }))
    ∧ (∀ (o : OpenAIClient) (message : String) (cs : List String) (t : SSETerminal),
        (t.ioEOF || containsEOF t.msg) = false →
        o.SendMessage message (.stream ⟨cs.map fun c => [c], t⟩) =
          (concatFragments cs, some ("stream error: " ++ t.msg),
           { o with messages := o.messages ++ [⟨UserRole, message⟩] }))
    ∧ (∀ (tc : TogetherClient) (message : String) (cs : List String) (t : SSETerminal),
        (t.ioEOF || containsEOF t.msg) = false →
        tc.SendMessage message (.stream ⟨cs.map fun c => [c], t⟩) =
          (concatFragments cs, some ("stream error: " ++ t.msg),
           { tc with messages := tc.messages ++ [⟨UserRole, message⟩] }))
    ∧ (∀ (g : GeminiClient) (message : String) (events : List GeminiResponse) (e : String),
        g.SendMessage message ⟨events, some e⟩ =
          (concatFragments (events.map geminiJoinParts), some ("stream error: " ++ e),
           { g with messages := g.messages ++ [⟨"user", message⟩] })) := by
  refine ⟨?_, ?_, ?_, ?_, ?_⟩
  · intro o message cs e body rest
    simp only [OllamaClient.SendMessage]
    rw [ollamaRecvLoop_decode_error, String.empty_append]
    simp
  · intro g message cs t ht
    simp only [GroqClient.SendMessage]
    rw [sseRecvLoop_eq, concatFirstChoices_singletons, String.empty_append, ht]
    simp
  · intro o message cs t ht
    simp only [OpenAIClient.SendMessage]
    rw [sseRecvLoop_eq, concatFirstChoices_singletons, String.empty_append, ht]
    simp
  · intro tc message cs t ht
    simp only [TogetherClient.SendMessage]
    rw [sseRecvLoop_eq, concatFirstChoices_singletons, String.empty_append, ht]
    simp
  · intro g message events e
    simp only [GeminiClient.SendMessage]
    rw [geminiRecvLoop_eq, String.empty_append]
    simp

/-- Witness for C1: the three SSE adapters at a concrete two-fragment stream
interrupted by a non-EOF transport error. -/
theorem stream_failure_keeps_user_message_witness :
    GroqClient.SendMessage ⟨[], "gemma2-9b-it"⟩ "hi"
        (.stream ⟨[["He"], ["llo"]], ⟨false, "connection reset by peer"⟩⟩) =
      ("Hello", some "stream error: connection reset by peer",
       ⟨[⟨"user", "hi"⟩], "gemma2-9b-it"⟩)
    ∧ OpenAIClient.SendMessage ⟨[], "gpt-4.1-nano"⟩ "hi"
        (.stream ⟨[["He"], ["llo"]], ⟨false, "connection reset by peer"⟩⟩) =
      ("Hello", some "stream error: connection reset by peer",
       ⟨[⟨"user", "hi"⟩], "gpt-4.1-nano"⟩)
    ∧ TogetherClient.SendMessage ⟨[], "meta-llama/Llama-3.3-70B-Instruct-Turbo-Free"⟩ "hi"
        (.stream ⟨[["He"], ["llo"]], ⟨false, "connection reset by peer"⟩⟩) =
      ("Hello", some "stream error: connection reset by peer",
       ⟨[⟨"user", "hi"⟩], "meta-llama/Llama-3.3-70B-Instruct-Turbo-Free"⟩) := by
  refine ⟨?_, ?_, ?_⟩
  · exact stream_failure_keeps_user_message.2.1 ⟨[], "gemma2-9b-it"⟩ "hi" ["He", "llo"]
      ⟨false, "connection reset by peer"⟩ (by decide)
  · exact stream_failure_keeps_user_message.2.2.1 ⟨[], "gpt-4.1-nano"⟩ "hi" ["He", "llo"]
      ⟨false, "connection reset by peer"⟩ (by decide)
  · exact stream_failure_keeps_user_message.2.2.2.1
      ⟨[], "meta-llama/Llama-3.3-70B-Instruct-Turbo-Free"⟩ "hi" ["He", "llo"]
      ⟨false, "connection reset by peer"⟩ (by decide)

/-- C9: for the three SSE adapters, a zero-choice delta event is non-fatal —
the returned text is the concatenation of the first choice's delta content
over exactly the events with at least one choice; an end-of-stream receive
error terminates the loop normally (success, assistant message appended), and
any other receive error aborts with the partial text (user message only). -/
theorem sse_zero_choice_nonfatal (message : String) (events : List SSEEvent)
    (t : SSETerminal) (g : GroqClient) (o : OpenAIClient) (tc : TogetherClient) :
    ((t.ioEOF || containsEOF t.msg) = true →
      g.SendMessage message (.stream ⟨events, t⟩) =
        (concatFirstChoices events, none,
         { g with messages := g.messages ++ [⟨UserRole, message⟩]
                    ++ [⟨AssistantRole, concatFirstChoices events⟩] })
      ∧ o.SendMessage message (.stream ⟨events, t⟩) =
        (concatFirstChoices events, none,
         { o with messages := o.messages ++ [⟨UserRole, message⟩]
                    ++ [⟨AssistantRole, concatFirstChoices events⟩] })
      ∧ tc.SendMessage message (.stream ⟨events, t⟩) =
        (concatFirstChoices events, none,
         { tc with messages := tc.messages ++ [⟨UserRole, message⟩]
                    ++ [⟨AssistantRole, concatFirstChoices events⟩] }))
    ∧ ((t.ioEOF || containsEOF t.msg) = false →
      g.SendMessage message (.stream ⟨events, t⟩) =
        (concatFirstChoices events, some ("stream error: " ++ t.msg),
         { g with messages := g.messages ++ [⟨UserRole, message⟩] })
      ∧ o.SendMessage message (.stream ⟨events, t⟩) =
        (concatFirstChoices events, some ("stream error: " ++ t.msg),
         { o with messages := o.messages ++ [⟨UserRole, message⟩] })
      ∧ tc.SendMessage message (.stream ⟨events, t⟩) =
        (concatFirstChoices events, some ("stream error: " ++ t.msg),
         { tc with messages := tc.messages ++ [⟨UserRole, message⟩] })) := by
  constructor
  · intro ht
    refine ⟨?_, ?_, ?_⟩
    · simp only [GroqClient.SendMessage]
      rw [sseRecvLoop_eq, String.empty_append, ht]
      simp
    · simp only [OpenAIClient.SendMessage]
      rw [sseRecvLoop_eq, String.empty_append, ht]
      simp
    · simp only [TogetherClient.SendMessage]
      rw [sseRecvLoop_eq, String.empty_append, ht]
      simp
  · intro ht
    refine ⟨?_, ?_, ?_⟩
    · simp only [GroqClient.SendMessage]
      rw [sseRecvLoop_eq, String.empty_append, ht]
      simp
    · simp only [OpenAIClient.SendMessage]
      rw [sseRecvLoop_eq, String.empty_append, ht]
      simp
    · simp only [TogetherClient.SendMessage]
      rw [sseRecvLoop_eq, String.empty_append, ht]
      simp

/-- Witness for C9: a stream with a zero-choice event between two fragment
events, terminated once by `io.EOF` (normal success) and once by a non-EOF
error (abort with partial text). -/
theorem sse_zero_choice_nonfatal_witness :
    (GroqClient.SendMessage ⟨[], "gemma2-9b-it"⟩ "hi"
        (.stream ⟨[["He"], [], ["llo"]], ⟨true, "EOF"⟩⟩) =
      ("Hello", none,
       ⟨[⟨"user", "hi"⟩, ⟨"assistant", "Hello"⟩], "gemma2-9b-it"⟩))
    ∧ (GroqClient.SendMessage ⟨[], "gemma2-9b-it"⟩ "hi"
        (.stream ⟨[["He"], [], ["llo"]], ⟨false, "connection reset by peer"⟩⟩) =
      ("Hello", some "stream error: connection reset by peer",
       ⟨[⟨"user", "hi"⟩], "gemma2-9b-it"⟩)) := by
  constructor
  · exact ((sse_zero_choice_nonfatal "hi" [["He"], [], ["llo"]] ⟨true, "EOF"⟩
      ⟨[], "gemma2-9b-it"⟩ ⟨[], "gpt-4.1-nano"⟩
      ⟨[], "meta-llama/Llama-3.3-70B-Instruct-Turbo-Free"⟩).1 (by decide)).1
  · exact ((sse_zero_choice_nonfatal "hi" [["He"], [], ["llo"]]
      ⟨false, "connection reset by peer"⟩
      ⟨[], "gemma2-9b-it"⟩ ⟨[], "gpt-4.1-nano"⟩
      ⟨[], "meta-llama/Llama-3.3-70B-Instruct-Turbo-Free"⟩).2 (by decide)).1

/-- C8: Ollama's `Initialize` defaults the endpoint to
`http://localhost:11434` when `OLLAMA_URL` is unset, consults no credential
variable (it depends only on `OLLAMA_URL` and `OLLAMA_MODEL`), and succeeds
exactly when the liveness probe connects and returns status 200. -/
theorem ollama_init_liveness (env : Env) (probe : ProbeResult) :
    (env "OLLAMA_URL" = "" →
      ∀ st, OllamaClient.Initialize env probe = .ok st →
        st.serverURL = "http://localhost:11434")
    ∧ ((∃ st, OllamaClient.Initialize env probe = .ok st) ↔ probe = .status 200)
    ∧ (∀ env' : Env, env' "OLLAMA_URL" = env "OLLAMA_URL" →
        env' "OLLAMA_MODEL" = env "OLLAMA_MODEL" →
        OllamaClient.Initialize env' probe = OllamaClient.Initialize env probe) := by
  refine ⟨?_, ⟨?_, ?_⟩, ?_⟩
  · intro hurl st hok
    cases probe with
    | connectError e => simp [OllamaClient.Initialize] at hok
    | status code =>
        by_cases hc : code = 200
        · subst hc
          simp only [OllamaClient.Initialize, hurl] at hok
          simp at hok
          rw [← hok]
        · simp [OllamaClient.Initialize, hc] at hok
  · rintro ⟨st, hok⟩
    cases probe with
    | connectError e => simp [OllamaClient.Initialize] at hok
    | status code =>
        by_cases hc : code = 200
        · rw [hc]
        · simp [OllamaClient.Initialize, hc] at hok
  · rintro rfl
    refine ⟨⟨if env "OLLAMA_URL" = "" then "http://localhost:11434" else env "OLLAMA_URL",
      seedMessages, resolveModel ollamaModels "llama" (env "OLLAMA_MODEL")⟩, ?_⟩
    simp [OllamaClient.Initialize]
  · intro env' h1 h2
    simp only [OllamaClient.Initialize, h1, h2]

/-- Witness for C8: with an empty environment and a 200 probe, initialization
succeeds, the ↔ gives back the probe, and the default URL is used; a second
empty environment initializes identically. -/
theorem ollama_init_liveness_witness :
    ollamaFreshClient.serverURL = "http://localhost:11434"
    ∧ (.status 200 : ProbeResult) = .status 200
    ∧ OllamaClient.Initialize (fun _ => "") (.status 200) =
        OllamaClient.Initialize (fun _ => "") (.status 200) := by
  refine ⟨?_, ?_, ?_⟩
  · exact (ollama_init_liveness (fun _ => "") (.status 200)).1 rfl
      ollamaFreshClient rfl
  · exact (ollama_init_liveness (fun _ => "") (.status 200)).2.1.mp
      ⟨ollamaFreshClient, rfl⟩
  · exact (ollama_init_liveness (fun _ => "") (.status 200)).2.2
      (fun _ => "") rfl rfl

/-- An environment whose only set variable is an `OPENAI_API_KEY` that is
present but rejected by `utils.ValidateAPIKey` (too short). -/
def envInvalidOpenAIKey : Env :=
  fun k => if k = "OPENAI_API_KEY" then "x" else ""

/-- An environment carrying a well-formed credential for every
credential-requiring provider and no model-alias overrides. -/
def envAllCredentials : Env :=
  fun k =>
    if k = "OPENAI_API_KEY" then "sk-12345678901234567890"
    else if k = "GROQ_API_KEY" then "groq-key"
    else if k = "TOGETHER_API_KEY" then "together-key"
    else if k = "SAMBA_API_KEY" then "samba-key"
    else if k = "GEMINI_API_KEY" then "gemini-key"
    else ""

/-- C3 counterexample: with the credential present (`OPENAI_API_KEY = "x"`),
OpenAI's `Initialize` still fails — the key is rejected by `ValidateAPIKey` —
refuting "initialization never fails for any other configuration reason with
the credential present". -/
theorem openai_invalid_key_fails_cex :
    envInvalidOpenAIKey "OPENAI_API_KEY" ≠ ""
    ∧ exceptIsOk (OpenAIClient.Initialize envInvalidOpenAIKey).result = false :=
  ⟨by decide, by decide⟩

/-- C3 (amended): for every credential-requiring provider, an absent
credential makes `Initialize` fail without opening any network resource; with
the credential present, an unknown or empty model alias never causes failure
— initialization then succeeds unconditionally for Groq, Together and
SambaNova, and for OpenAI and Gemini subject only to their additional
non-alias checks (OpenAI's key-format validation, Gemini's client creation),
OpenAI failing whenever the present key is rejected by `ValidateAPIKey`. -/
theorem credential_gating (env : Env) (nc : Except String Unit) :
    ((env "GROQ_API_KEY" = "" →
        exceptIsOk (GroqClient.Initialize env).result = false
        ∧ (GroqClient.Initialize env).openedResources = [])
     ∧ (env "TOGETHER_API_KEY" = "" →
        exceptIsOk (TogetherClient.Initialize env).result = false
        ∧ (TogetherClient.Initialize env).openedResources = [])
     ∧ (env "OPENAI_API_KEY" = "" →
        exceptIsOk (OpenAIClient.Initialize env).result = false
        ∧ (OpenAIClient.Initialize env).openedResources = [])
     ∧ (env "SAMBA_API_KEY" = "" →
        exceptIsOk (SambaClient.Initialize env).result = false
        ∧ (SambaClient.Initialize env).openedResources = [])
     ∧ (env "GEMINI_API_KEY" = "" →
        exceptIsOk (GeminiClient.Initialize env nc).result = false
        ∧ (GeminiClient.Initialize env nc).openedResources = []))
    ∧ ((env "GROQ_API_KEY" ≠ "" → exceptIsOk (GroqClient.Initialize env).result = true)
     ∧ (env "TOGETHER_API_KEY" ≠ "" → exceptIsOk (TogetherClient.Initialize env).result = true)
     ∧ (env "SAMBA_API_KEY" ≠ "" → exceptIsOk (SambaClient.Initialize env).result = true)
     ∧ (env "OPENAI_API_KEY" ≠ "" → ValidateAPIKey (env "OPENAI_API_KEY") "openai" = true →
        exceptIsOk (OpenAIClient.Initialize env).result = true)
     ∧ (env "GEMINI_API_KEY" ≠ "" → nc = .ok () →
        exceptIsOk (GeminiClient.Initialize env nc).result = true))
    ∧ (env "OPENAI_API_KEY" ≠ "" → ValidateAPIKey (env "OPENAI_API_KEY") "openai" = false →
        exceptIsOk (OpenAIClient.Initialize env).result = false) := by
  refine ⟨⟨?_, ?_, ?_, ?_, ?_⟩, ⟨?_, ?_, ?_, ?_, ?_⟩, ?_⟩
  · intro h
    simp [GroqClient.Initialize, h, exceptIsOk]
  · intro h
    simp [TogetherClient.Initialize, h, exceptIsOk]
  · intro h
    simp [OpenAIClient.Initialize, h, exceptIsOk]
  · intro h
    simp [SambaClient.Initialize, h, exceptIsOk]
  · intro h
    simp [GeminiClient.Initialize, h, exceptIsOk]
  · intro h
    simp [GroqClient.Initialize, h, exceptIsOk]
  · intro h
    simp [TogetherClient.Initialize, h, exceptIsOk]
  · intro h
    simp [SambaClient.Initialize, h, exceptIsOk]
  · intro h hv
    simp [OpenAIClient.Initialize, h, hv, exceptIsOk]
  · intro h hnc
    simp [GeminiClient.Initialize, h, hnc, exceptIsOk]
  · intro h hv
    simp [OpenAIClient.Initialize, h, hv, exceptIsOk]

/-- Witness for C3: the empty environment fails all five credential-requiring
initializations without opening resources; `envAllCredentials` makes all five
succeed; the short present key fails OpenAI. -/
theorem credential_gating_witness :
    (exceptIsOk (GroqClient.Initialize (fun _ => "")).result = false
      ∧ (GroqClient.Initialize (fun _ => "")).openedResources = [])
    ∧ (exceptIsOk (GeminiClient.Initialize (fun _ => "") (.ok ())).result = false
      ∧ (GeminiClient.Initialize (fun _ => "") (.ok ())).openedResources = [])
    ∧ exceptIsOk (GroqClient.Initialize envAllCredentials).result = true
    ∧ exceptIsOk (TogetherClient.Initialize envAllCredentials).result = true
    ∧ exceptIsOk (SambaClient.Initialize envAllCredentials).result = true
    ∧ exceptIsOk (OpenAIClient.Initialize envAllCredentials).result = true
    ∧ exceptIsOk (GeminiClient.Initialize envAllCredentials (.ok ())).result = true
    ∧ exceptIsOk (OpenAIClient.Initialize envInvalidOpenAIKey).result = false := by
  refine ⟨?_, ?_, ?_, ?_, ?_, ?_, ?_, ?_⟩
  · exact (credential_gating (fun _ => "") (.ok ())).1.1 rfl
  · exact (credential_gating (fun _ => "") (.ok ())).1.2.2.2.2 rfl
  · exact (credential_gating envAllCredentials (.ok ())).2.1.1 (by decide)
  · exact (credential_gating envAllCredentials (.ok ())).2.1.2.1 (by decide)
  · exact (credential_gating envAllCredentials (.ok ())).2.1.2.2.1 (by decide)
  · exact (credential_gating envAllCredentials (.ok ())).2.1.2.2.2.1 (by decide) (by decide)
  · exact (credential_gating envAllCredentials (.ok ())).2.1.2.2.2.2 (by decide) rfl
  · exact (credential_gating envInvalidOpenAIKey (.ok ())).2.2 (by decide) (by decide)

/-- When the alias is not in the table, the selection falls through to the
default alias. -/
theorem resolveModel_default (table : List (String × String)) (dflt k : String)
    (h : table.lookup k = none) :
    resolveModel table dflt k = mapGet table dflt := by
  simp [resolveModel, mapGet, h]

/-- C4: for every provider, an unset or unrecognized model-alias environment
variable resolves to the documented per-provider default concrete model
identifier — no error, and the defaults are non-empty — and `GetModelName`
returns that identifier. (Successful-initialization side conditions: a 200
liveness probe for Ollama, credentials present, OpenAI's key well-formed,
Gemini's client creation succeeding.) -/
theorem default_model_resolution (env : Env)
    (hOl : ollamaModels.lookup (env "OLLAMA_MODEL") = none)
    (hGr : groqModels.lookup (env "GROQ_MODEL") = none)
    (hOp : openaiModels.lookup (env "OPENAI_MODEL") = none)
    (hTo : togetherModels.lookup (env "TOGETHER_MODEL") = none)
    (hSa : sambaModels.lookup (env "SAMBA_MODEL") = none)
    (hGe : geminiModels.lookup (env "GEMINI_MODEL") = none)
    (hGrK : env "GROQ_API_KEY" ≠ "") (hToK : env "TOGETHER_API_KEY" ≠ "")
    (hSaK : env "SAMBA_API_KEY" ≠ "") (hOpK : env "OPENAI_API_KEY" ≠ "")
    (hOpV : ValidateAPIKey (env "OPENAI_API_KEY") "openai" = true)
    (hGeK : env "GEMINI_API_KEY" ≠ "") :
    (OllamaClient.Initialize env (.status 200)).map OllamaClient.GetModelName =
        .ok "llama3:latest"
    ∧ (GroqClient.Initialize env).result.map GroqClient.GetModelName = .ok "gemma2-9b-it"
    ∧ (OpenAIClient.Initialize env).result.map OpenAIClient.GetModelName = .ok "gpt-4.1-nano"
    ∧ (TogetherClient.Initialize env).result.map TogetherClient.GetModelName =
        .ok "meta-llama/Llama-3.3-70B-Instruct-Turbo-Free"
    ∧ (SambaClient.Initialize env).result.map SambaClient.GetModelName =
        .ok "Meta-Llama-3.3-70B-Instruct"
    ∧ (GeminiClient.Initialize env (.ok ())).result.map GeminiClient.GetModelName =
        .ok "gemini-2.0-flash-lite"
    ∧ ("llama3:latest" : String) ≠ "" ∧ ("gemma2-9b-it" : String) ≠ ""
    ∧ ("gpt-4.1-nano" : String) ≠ ""
    ∧ ("meta-llama/Llama-3.3-70B-Instruct-Turbo-Free" : String) ≠ ""
    ∧ ("Meta-Llama-3.3-70B-Instruct" : String) ≠ ""
    ∧ ("gemini-2.0-flash-lite" : String) ≠ "" := by
  refine ⟨?_, ?_, ?_, ?_, ?_, ?_, by decide, by decide, by decide, by decide, by decide,
    by decide⟩
  · simp only [OllamaClient.Initialize, resolveModel_default _ _ _ hOl]
    simp [Except.map, OllamaClient.GetModelName]
    decide
  · simp only [GroqClient.Initialize, if_neg hGrK, resolveModel_default _ _ _ hGr]
    simp [Except.map, GroqClient.GetModelName]
    decide
  · simp only [OpenAIClient.Initialize, if_neg hOpK, hOpV,
      resolveModel_default _ _ _ hOp]
    simp [Except.map, OpenAIClient.GetModelName]
    decide
  · simp only [TogetherClient.Initialize, if_neg hToK, resolveModel_default _ _ _ hTo]
    simp [Except.map, TogetherClient.GetModelName]
    decide
  · simp only [SambaClient.Initialize, if_neg hSaK, resolveModel_default _ _ _ hSa]
    simp [Except.map, SambaClient.GetModelName]
    decide
  · simp only [GeminiClient.Initialize, if_neg hGeK, resolveModel_default _ _ _ hGe]
    simp [Except.map, GeminiClient.GetModelName]
    decide

/-- Witness for C4: `envAllCredentials` leaves every model alias unset, and
every provider resolves to its documented default. -/
theorem default_model_resolution_witness :
    (OllamaClient.Initialize envAllCredentials (.status 200)).map OllamaClient.GetModelName =
        .ok "llama3:latest"
    ∧ (GroqClient.Initialize envAllCredentials).result.map GroqClient.GetModelName =
        .ok "gemma2-9b-it"
    ∧ (OpenAIClient.Initialize envAllCredentials).result.map OpenAIClient.GetModelName =
        .ok "gpt-4.1-nano"
    ∧ (TogetherClient.Initialize envAllCredentials).result.map TogetherClient.GetModelName =
        .ok "meta-llama/Llama-3.3-70B-Instruct-Turbo-Free"
    ∧ (SambaClient.Initialize envAllCredentials).result.map SambaClient.GetModelName =
        .ok "Meta-Llama-3.3-70B-Instruct"
    ∧ (GeminiClient.Initialize envAllCredentials (.ok ())).result.map GeminiClient.GetModelName =
        .ok "gemini-2.0-flash-lite"
    ∧ ("llama3:latest" : String) ≠ "" ∧ ("gemma2-9b-it" : String) ≠ ""
    ∧ ("gpt-4.1-nano" : String) ≠ ""
    ∧ ("meta-llama/Llama-3.3-70B-Instruct-Turbo-Free" : String) ≠ ""
    ∧ ("Meta-Llama-3.3-70B-Instruct" : String) ≠ ""
    ∧ ("gemini-2.0-flash-lite" : String) ≠ "" :=
  default_model_resolution envAllCredentials (by decide) (by decide) (by decide) (by decide)
    (by decide) (by decide) (by decide) (by decide) (by decide) (by decide) (by decide)
    (by decide)

/-- Whether a factory-returned client is the concrete adapter corresponding to
the requested provider name. -/
def matchesProvider (provider : String) : ChatClient → Prop
  | .together _ => provider = "together"
  | .ollama _ => provider = "ollama"
  | .groq _ => provider = "groq"
  | .samba _ => provider = "samba"
  | .openai _ => provider = "openai"
  | .gemini _ => provider = "gemini"

/-- C7: the factory rejects every provider name outside the fixed supported
set with an unsupported-provider error and no client; whenever it returns a
client, the name was in the supported set and the client is the corresponding
concrete adapter. -/
theorem factory_provider_set (provider : String) (env : Env) (probe : ProbeResult)
    (nc : Except String Unit) :
    (provider ∉ supportedProviders →
      CreateChatClient provider env probe nc =
        .error ("unsupported provider: " ++ provider))
    ∧ (∀ c, CreateChatClient provider env probe nc = .ok c →
        provider ∈ supportedProviders ∧ matchesProvider provider c) := by
  constructor
  · intro hns
    simp only [supportedProviders, List.mem_cons, List.not_mem_nil, or_false] at hns
    push_neg at hns
    obtain ⟨h1, h2, h3, h4, h5, h6⟩ := hns
    simp [CreateChatClient, h1, h2, h3, h4, h5, h6]
  · intro c hc
    unfold CreateChatClient at hc
    by_cases h1 : provider = "together"
    · subst h1
      rw [if_pos rfl] at hc
      refine ⟨by decide, ?_⟩
      by_cases hk : env "TOGETHER_API_KEY" ≠ ""
      · rw [if_pos hk] at hc
        obtain ⟨st, -, rfl⟩ := except_map_ok _ _ _ hc
        exact rfl
      · rw [if_neg hk] at hc
        exact Except.noConfusion hc
    rw [if_neg h1] at hc
    by_cases h2 : provider = "groq"
    · subst h2
      rw [if_pos rfl] at hc
      refine ⟨by decide, ?_⟩
      by_cases hk : env "GROQ_API_KEY" ≠ ""
      · rw [if_pos hk] at hc
        obtain ⟨st, -, rfl⟩ := except_map_ok _ _ _ hc
        exact rfl
      · rw [if_neg hk] at hc
        exact Except.noConfusion hc
    rw [if_neg h2] at hc
    by_cases h3 : provider = "samba"
    · subst h3
      rw [if_pos rfl] at hc
      refine ⟨by decide, ?_⟩
      by_cases hk : env "SAMBA_API_KEY" ≠ ""
      · rw [if_pos hk] at hc
        obtain ⟨st, -, rfl⟩ := except_map_ok _ _ _ hc
        exact rfl
      · rw [if_neg hk] at hc
        exact Except.noConfusion hc
    rw [if_neg h3] at hc
    by_cases h4 : provider = "openai"
    · subst h4
      rw [if_pos rfl] at hc
      refine ⟨by decide, ?_⟩
      by_cases hk : env "OPENAI_API_KEY" ≠ ""
      · rw [if_pos hk] at hc
        obtain ⟨st, -, rfl⟩ := except_map_ok _ _ _ hc
        exact rfl
      · rw [if_neg hk] at hc
        exact Except.noConfusion hc
    rw [if_neg h4] at hc
    by_cases h5 : provider = "gemini"
    · subst h5
      rw [if_pos rfl] at hc
      refine ⟨by decide, ?_⟩
      by_cases hk : env "GEMINI_API_KEY" ≠ ""
      · rw [if_pos hk] at hc
        obtain ⟨st, -, rfl⟩ := except_map_ok _ _ _ hc
        exact rfl
      · rw [if_neg hk] at hc
        exact Except.noConfusion hc
    rw [if_neg h5] at hc
    by_cases h6 : provider = "ollama"
    · subst h6
      rw [if_pos rfl] at hc
      refine ⟨by decide, ?_⟩
      obtain ⟨st, -, rfl⟩ := except_map_ok _ _ _ hc
      exact rfl
    rw [if_neg h6] at hc
    exact Except.noConfusion hc

/-- Witness for C7: the name `"foo"` is rejected with the unsupported-provider
error, and a successful `"ollama"` construction is the Ollama adapter. -/
theorem factory_provider_set_witness :
    CreateChatClient "foo" (fun _ => "") (.status 200) (.ok ()) =
      .error ("unsupported provider: " ++ "foo")
    ∧ ("ollama" ∈ supportedProviders
        ∧ matchesProvider "ollama" (ChatClient.ollama ollamaFreshClient)) := by
  constructor
  · exact (factory_provider_set "foo" (fun _ => "") (.status 200) (.ok ())).1 (by decide)
  · exact (factory_provider_set "ollama" (fun _ => "") (.status 200) (.ok ())).2
      (ChatClient.ollama ollamaFreshClient) rfl

end ChatCli
